import Mathlib

/-!
Verification development for mutedeck2mqtt (src/main.go): a webhook-to-MQTT
bridge that validates inbound status records, normalizes the control field,
deduplicates Home Assistant discovery publishes per topic, and replays stored
discovery documents when the lifecycle channel reports the consumer online.
All definitions below are shallow embeddings of the corresponding Go code.
-/

namespace Mutedeck

/-- JSON-like values as decoded into a Go map of string to interface. -/
inductive Jval where
  | str : String → Jval
  | num : Int → Jval
  | bool : Bool → Jval
  | null : Jval
deriving DecidableEq, Repr

/-- A decoded webhook body: association list of field name to value
(Go map with unique keys; order is irrelevant since serialization sorts). -/
abbrev Rec := List (String × Jval)

/-- Go map lookup on an association list (first match wins). -/
def lookupKey {α : Type} : List (String × α) → String → Option α
  | [], _ => none
  | e :: es, k => if e.1 = k then some e.2 else lookupKey es k

/-- Model of Go strings.HasPrefix, by structural recursion on characters. -/
def hasPfx : List Char → List Char → Bool
  | [], _ => true
  | _ :: _, [] => false
  | p :: ps, c :: cs => p == c && hasPfx ps cs

/-- strings.HasPrefix on strings: does s start with the pattern pat. -/
def strHasPfx (s pat : String) : Bool := hasPfx pat.data s.data

/-- Core of the title caser: pend is true when the next letter begins a word
(model of x/text cases.Title for the English language: first letter of each
word is upper-cased, remaining letters lower-cased; word boundaries are
non-alphanumeric characters). -/
def titleCaseCore : List Char → Bool → List Char
  | [], _ => []
  | c :: cs, pend =>
    if c.isAlpha then
      (if pend then c.toUpper else c.toLower) :: titleCaseCore cs false
    else if c.isDigit then
      c :: titleCaseCore cs pend
    else
      c :: titleCaseCore cs true

/-- Model of toTitleCase in src/main.go: replace underscores with spaces,
then apply the English title caser. -/
def toTitleCase (s : String) : String :=
  String.mk (titleCaseCore (s.data.map (fun c => if c = '_' then ' ' else c)) true)

/-- Model of getPlatformName in src/main.go: fixed prefix/exact-match table
mapping a raw control value to a display label, falling back to title case. -/
def getPlatformName (input : String) : String :=
  if strHasPfx input "zoom" then "Zoom"
  else if strHasPfx input "teams" then "Teams"
  else if input = "webex" then "Webex"
  else if input = "streamyard" then "StreamYard"
  else if input = "google-meet" then "Google Meet"
  else toTitleCase input

/-- Constant object_id from src/main.go. -/
def object_id : String := "mutedeck2mqtt_device"

/-- Device block of the discovery payload (Go struct Device). -/
structure Device where
  IDs : List String
  Name : String
  Manufacturer : String
  Model : String
  SoftwareVersion : String
  SerialNumber : String
  HardwareVersion : String
deriving DecidableEq, Repr

/-- Origin block of the discovery payload (Go struct Origin). -/
structure Origin where
  Name : String
  SoftwareVersion : String
  URL : String
deriving DecidableEq, Repr

/-- One entity description in the discovery payload (Go struct Component). -/
structure Component where
  CommandTopic : String
  EnabledByDefault : Bool
  EntityCategory : String
  Icon : String
  Name : String
  ObjectID : String
  Optimistic : Bool
  Options : List String
  Platform : String
  StateTopic : String
  UniqueID : String
  ValueTemplate : String
deriving DecidableEq, Repr

/-- The discovery payload (Go struct DiscoveryPayloadStruct); the Components
Go map is modelled as an association list with unique keys. -/
structure DiscoveryPayloadStruct where
  Dev : Device
  O : Origin
  Components : List (String × Component)
  StateTopic : String
  QualityOfService : Int
deriving DecidableEq, Repr

/-- The discovery payload built in the handler of src/main.go for a given
topic and routing prefix (field-by-field transcription of lines 274-373). -/
def buildDiscoveryPayload (topic pfx : String) : DiscoveryPayloadStruct :=
  { Dev :=
      { IDs := [object_id ++ "_" ++ topic]
        Name := toTitleCase topic
        Manufacturer := "MuteDeck"
        Model := ""
        SoftwareVersion := ""
        SerialNumber := ""
        HardwareVersion := "" }
    O :=
      { Name := "MuteDeck2MQTT"
        SoftwareVersion := "2024.12.16"
        URL := "https://github.com/chelming/mutedeck2mqtt/" }
    Components :=
      [ (topic ++ "_call",
          { CommandTopic := "mutedeck2mqtt/no-reply"
            EnabledByDefault := true
            EntityCategory := "diagnostic"
            Icon := "mdi:phone"
            Name := "Call"
            ObjectID := topic ++ "_call"
            Optimistic := false
            Options := []
            Platform := "binary_sensor"
            StateTopic := pfx ++ "/" ++ topic
            UniqueID := topic ++ "_call_mutedeck2mqtt"
            ValueTemplate := "\x7b\x7b value_json.call != \x27active\x27 and \x27OFF\x27 or \x27ON\x27 \x7d\x7d" }),
        (topic ++ "_control",
          { CommandTopic := "mutedeck2mqtt/no-reply"
            EnabledByDefault := true
            EntityCategory := "diagnostic"
            Icon := "mdi:application-cog"
            Name := "Control"
            ObjectID := topic ++ "_control"
            Optimistic := false
            Options := ["Zoom", "Teams", "Google Meet", "StreamYard", "Webex", "System"]
            Platform := "select"
            StateTopic := pfx ++ "/" ++ topic
            UniqueID := topic ++ "_control_mutedeck2mqtt"
            ValueTemplate := "\x7b\x7b value_json.control \x7d\x7d" }),
        (topic ++ "_mute",
          { CommandTopic := "mutedeck2mqtt/no-reply"
            EnabledByDefault := true
            EntityCategory := "diagnostic"
            Icon := "mdi:microphone"
            Name := "Microphone"
            ObjectID := topic ++ "_mute"
            Optimistic := false
            Options := []
            Platform := "binary_sensor"
            StateTopic := pfx ++ "/" ++ topic
            UniqueID := topic ++ "_mute_mutedeck2mqtt"
            ValueTemplate := "\x7b\x7b value_json.mute == \x27active\x27 and \x27OFF\x27 or \x27ON\x27 \x7d\x7d" }),
        (topic ++ "_record",
          { CommandTopic := "mutedeck2mqtt/no-reply"
            EnabledByDefault := true
            EntityCategory := "diagnostic"
            Icon := "mdi:record-rec"
            Name := "Recording"
            ObjectID := topic ++ "_record"
            Optimistic := false
            Options := []
            Platform := "binary_sensor"
            StateTopic := pfx ++ "/" ++ topic
            UniqueID := topic ++ "_record_mutedeck2mqtt"
            ValueTemplate := "\x7b\x7b value_json.record != \x27active\x27 and \x27OFF\x27 or \x27ON\x27 \x7d\x7d" }),
        (topic ++ "_share",
          { CommandTopic := "mutedeck2mqtt/no-reply"
            EnabledByDefault := true
            EntityCategory := "diagnostic"
            Icon := "mdi:monitor-share"
            Name := "Screen sharing"
            ObjectID := topic ++ "_share"
            Optimistic := false
            Options := []
            Platform := "binary_sensor"
            StateTopic := pfx ++ "/" ++ topic
            UniqueID := topic ++ "_share_mutedeck2mqtt"
            ValueTemplate := "\x7b\x7b value_json.share != \x27active\x27 and \x27OFF\x27 or \x27ON\x27 \x7d\x7d" }),
        (topic ++ "_video",
          { CommandTopic := "mutedeck2mqtt/no-reply"
            EnabledByDefault := true
            EntityCategory := "diagnostic"
            Icon := "mdi:video"
            Name := "Video"
            ObjectID := topic ++ "_video"
            Optimistic := false
            Options := []
            Platform := "binary_sensor"
            StateTopic := pfx ++ "/" ++ topic
            UniqueID := topic ++ "_video_mutedeck2mqtt"
            ValueTemplate := "\x7b\x7b value_json.video != \x27active\x27 and \x27OFF\x27 or \x27ON\x27 \x7d\x7d" }) ]
    StateTopic := pfx ++ "/" ++ topic
    QualityOfService := 0 }

/-- Escaping of one character as performed by Go json.Marshal on a string
(HTML-escaping of angle brackets and ampersand included, as Go does by
default). -/
def escChar (c : Char) : String :=
  if c = '"' then "\\\""
  else if c = '\\' then "\\\\"
  else if c = '<' then "\\u003c"
  else if c = '>' then "\\u003e"
  else if c = '&' then "\\u0026"
  else if c = '\n' then "\\n"
  else if c = '\t' then "\\t"
  else if c = '\r' then "\\r"
  else String.singleton c

/-- JSON string escaping, character by character. -/
def jsonEscape (s : String) : String := String.join (s.data.map escChar)

/-- A JSON-quoted string. -/
def qstr (s : String) : String := "\"" ++ jsonEscape s ++ "\""

/-- Serialization of a JSON value. -/
def jvalToJson : Jval → String
  | .str s => qstr s
  | .num n => toString n
  | .bool b => if b then "true" else "false"
  | .null => "null"

/-- Byte-order comparison on characters (Go string less-than on ASCII). -/
def strLtChars : List Char → List Char → Bool
  | [], [] => false
  | [], _ :: _ => true
  | _ :: _, [] => false
  | a :: as, b :: bs =>
    if a.toNat < b.toNat then true
    else if b.toNat < a.toNat then false
    else strLtChars as bs

/-- Key order used when serializing a Go map: string less-or-equal. -/
def keyLe (a b : String) : Bool := ! strLtChars b.data a.data

/-- Insertion into a key-sorted association list. -/
def insertByKey {α : Type} (e : String × α) : List (String × α) → List (String × α)
  | [] => [e]
  | f :: fs => if keyLe e.1 f.1 then e :: f :: fs else f :: insertByKey e fs

/-- Insertion sort by key: Go json.Marshal emits map entries in sorted key
order. -/
def sortByKey {α : Type} : List (String × α) → List (String × α)
  | [] => []
  | e :: es => insertByKey e (sortByKey es)

/-- Go json.Marshal of a map of string to value: sorted keys, no spaces. -/
def serializeRec (r : Rec) : String :=
  "\x7b" ++ String.intercalate ","
    ((sortByKey r).map (fun e => qstr e.1 ++ ":" ++ jvalToJson e.2)) ++ "\x7d"

/-- Go json.Marshal of a slice of strings. -/
def serializeStrList (l : List String) : String :=
  "[" ++ String.intercalate "," (l.map qstr) ++ "]"

/-- Go json.Marshal of the Device struct, in declared field order with the
struct tags of src/main.go. -/
def serializeDevice (d : Device) : String :=
  "\x7b\"ids\":" ++ serializeStrList d.IDs ++
  ",\"name\":" ++ qstr d.Name ++
  ",\"mf\":" ++ qstr d.Manufacturer ++
  ",\"mdl\":" ++ qstr d.Model ++
  ",\"sw\":" ++ qstr d.SoftwareVersion ++
  ",\"sn\":" ++ qstr d.SerialNumber ++
  ",\"hw\":" ++ qstr d.HardwareVersion ++ "\x7d"

/-- Go json.Marshal of the Origin struct. -/
def serializeOrigin (o : Origin) : String :=
  "\x7b\"name\":" ++ qstr o.Name ++
  ",\"sw\":" ++ qstr o.SoftwareVersion ++
  ",\"url\":" ++ qstr o.URL ++ "\x7d"

/-- Boolean literal as emitted by json.Marshal. -/
def boolJson (b : Bool) : String := if b then "true" else "false"

/-- Go json.Marshal of one Component struct. -/
def serializeComponent (c : Component) : String :=
  "\x7b\"cmd_t\":" ++ qstr c.CommandTopic ++
  ",\"en\":" ++ boolJson c.EnabledByDefault ++
  ",\"ent_cat\":" ++ qstr c.EntityCategory ++
  ",\"icon\":" ++ qstr c.Icon ++
  ",\"name\":" ++ qstr c.Name ++
  ",\"obj_id\":" ++ qstr c.ObjectID ++
  ",\"opt\":" ++ boolJson c.Optimistic ++
  ",\"options\":" ++ serializeStrList c.Options ++
  ",\"p\":" ++ qstr c.Platform ++
  ",\"stat_t\":" ++ qstr c.StateTopic ++
  ",\"uniq_id\":" ++ qstr c.UniqueID ++
  ",\"val_tpl\":" ++ qstr c.ValueTemplate ++ "\x7d"

/-- Go json.Marshal of the Components map: sorted keys. -/
def serializeComponents (cs : List (String × Component)) : String :=
  "\x7b" ++ String.intercalate ","
    ((sortByKey cs).map (fun e => qstr e.1 ++ ":" ++ serializeComponent e.2)) ++ "\x7d"

/-- Go json.Marshal of the whole DiscoveryPayloadStruct, in declared field
order. -/
def serializeDiscovery (p : DiscoveryPayloadStruct) : String :=
  "\x7b\"dev\":" ++ serializeDevice p.Dev ++
  ",\"o\":" ++ serializeOrigin p.O ++
  ",\"cmps\":" ++ serializeComponents p.Components ++
  ",\"stat_t\":" ++ qstr p.StateTopic ++
  ",\"qos\":" ++ toString p.QualityOfService ++ "\x7d"

/-- Process-wide mutable state of src/main.go: the set of discovery topics
already marked sent (discoveryTopics map, as a list of keys) and the stored
discovery payloads (discoveryMessages map, as an association list). -/
structure ProcState where
  discoveryTopics : List String
  discoveryMessages : List (String × DiscoveryPayloadStruct)
deriving DecidableEq, Repr

/-- The state at process start: both maps empty. -/
def ProcState.fresh : ProcState := ⟨[], []⟩

/-- One inbound webhook request: the decoded JSON body and the raw query
parameters (the empty string stands for an absent parameter, as Go's
Query().Get returns the empty string then). -/
structure Request where
  body : Rec
  topicParam : String
  prefixParam : String
deriving DecidableEq, Repr

/-- The broker as seen by one request: whether the discovery publish and the
status publish succeed, and the error text the broker reports on failure. -/
structure Broker where
  discOk : Bool
  statOk : Bool
  discErrMsg : String
  statErrMsg : String
deriving DecidableEq, Repr

/-- Which call site in src/main.go issued a publish. -/
inductive PubKind where
  | discovery : PubKind
  | status : PubKind
  | resend : PubKind
deriving DecidableEq, Repr

/-- One attempted MQTT publish: destination topic, payload bytes, issuing
call site, and whether the broker accepted it. -/
structure Pub where
  topic : String
  payload : String
  kind : PubKind
  ok : Bool
deriving DecidableEq, Repr

/-- The observable outcome of one HTTP request: response status and body,
the publishes attempted, and the process state afterwards. -/
structure HandlerResult where
  status : Nat
  body : String
  publishes : List Pub
  state : ProcState
deriving DecidableEq, Repr

/-- The required keys checked by the handler, in source order. -/
def requiredKeys : List String := ["call", "control", "mute", "record", "share", "video"]

/-- The first required key absent from the body, if any (the handler's
validation loop). -/
def firstMissingKey (r : Rec) : Option String :=
  requiredKeys.find? (fun k => (lookupKey r k).isNone)

/-- Rewrite of one body entry: the control field's value, when a string, is
replaced by getPlatformName of it; every other entry is untouched. -/
def normalizeEntry (e : String × Jval) : String × Jval :=
  if e.1 = "control" then
    match e.2 with
    | Jval.str s => (e.1, Jval.str (getPlatformName s))
    | v => (e.1, v)
  else e

/-- The in-place rewrite of the control field applied to the whole decoded
body (src/main.go lines 252-255). -/
def normalizeControl (r : Rec) : Rec := r.map normalizeEntry

/-- Topic resolution: the topic query parameter, defaulting to mutedeck when
absent or empty. -/
def resolveTopic (req : Request) : String :=
  if req.topicParam = "" then "mutedeck" else req.topicParam

/-- Routing-prefix resolution: the prefix query parameter, defaulting to
mutedeck2mqtt when absent or empty. -/
def resolvePfx (req : Request) : String :=
  if req.prefixParam = "" then "mutedeck2mqtt" else req.prefixParam

/-- The discovery channel key built from the discovery root and the topic
(src/main.go line 269); the routing prefix does not appear in it. -/
def discoveryTopicFor (root topic : String) : String :=
  root ++ "/device/" ++ object_id ++ "_" ++ topic ++ "/config"

/-- The status channel name (src/main.go line 402). -/
def fullTopicFor (req : Request) : String :=
  resolvePfx req ++ "/" ++ resolveTopic req

/-- The state after a successful discovery publish: the key is marked sent
and the payload stored (src/main.go lines 393-394). -/
def markState (root : String) (st : ProcState) (req : Request) : ProcState :=
  { discoveryTopics := st.discoveryTopics ++ [discoveryTopicFor root (resolveTopic req)]
    discoveryMessages := st.discoveryMessages ++
      [(discoveryTopicFor root (resolveTopic req),
        buildDiscoveryPayload (resolveTopic req) (resolvePfx req))] }

/-- The tail of the handler: serialize the normalized body and publish it to
the status channel; 200 on success, 500 with the broker error on failure
(src/main.go lines 401-424). -/
def publishStatus (client : Broker) (st : ProcState) (req : Request) (pre : List Pub) : HandlerResult :=
  if client.statOk then
    { status := 200, body := ""
      publishes := pre ++ [⟨fullTopicFor req, serializeRec (normalizeControl req.body), PubKind.status, true⟩]
      state := st }
  else
    { status := 500, body := client.statErrMsg
      publishes := pre ++ [⟨fullTopicFor req, serializeRec (normalizeControl req.body), PubKind.status, false⟩]
      state := st }

/-- The handler body after validation: check the dedup cache under the lock;
if the key is unmarked, build and publish the discovery payload, marking the
key only on success; then publish the status message (src/main.go 267-424). -/
def handleValid (root : String) (client : Broker) (st : ProcState) (req : Request) : HandlerResult :=
  if st.discoveryTopics.contains (discoveryTopicFor root (resolveTopic req)) then
    publishStatus client st req []
  else if client.discOk then
    publishStatus client (markState root st req) req
      [⟨discoveryTopicFor root (resolveTopic req),
        serializeDiscovery (buildDiscoveryPayload (resolveTopic req) (resolvePfx req)),
        PubKind.discovery, true⟩]
  else
    { status := 500, body := client.discErrMsg
      publishes := [⟨discoveryTopicFor root (resolveTopic req),
        serializeDiscovery (buildDiscoveryPayload (resolveTopic req) (resolvePfx req)),
        PubKind.discovery, false⟩]
      state := st }

/-- The HTTP handler of src/main.go for one decoded request: validate the six
required keys (400 naming the first absent one, nothing published), then
normalize control and run the discovery/status publish sequence. -/
def handle (root : String) (client : Broker) (st : ProcState) (req : Request) : HandlerResult :=
  match firstMissingKey req.body with
  | some key =>
      { status := 400, body := "Missing required key: " ++ key, publishes := [], state := st }
  | none => handleValid root client st req

/-- Sequential processing of a list of requests, threading the state. -/
def runRequests (root : String) (client : Broker) : ProcState → List Request → List HandlerResult
  | _, [] => []
  | st, r :: rs =>
    let res := handle root client st r
    res :: runRequests root client res.state rs

/-- Number of publish attempts of a given kind across a list of results. -/
def countKind (k : PubKind) (rs : List HandlerResult) : Nat :=
  (rs.map (fun r => (r.publishes.filter (fun p => p.kind == k)).length)).sum

/-- Payloads of the status publishes of one result. -/
def statusPayloads (res : HandlerResult) : List String :=
  (res.publishes.filter (fun p => p.kind == PubKind.status)).map Pub.payload

/-- Topics of the status publishes of one result. -/
def statusTopics (res : HandlerResult) : List String :=
  (res.publishes.filter (fun p => p.kind == PubKind.status)).map Pub.topic

/-- Payloads of the discovery publishes of one result. -/
def discoveryPayloads (res : HandlerResult) : List String :=
  (res.publishes.filter (fun p => p.kind == PubKind.discovery)).map Pub.payload

/-- Model of resendDiscoveryMessages in src/main.go: republish every stored
discovery payload; okFn says whether the broker accepts each publish, and a
failure does not stop the loop. The state is not touched. -/
def resendDiscoveryMessages (okFn : String → Bool) (st : ProcState) : List Pub :=
  st.discoveryMessages.map (fun e => ⟨e.1, serializeDiscovery e.2, PubKind.resend, okFn e.1⟩)

/-- The lifecycle subscription callback (src/main.go lines 211-216): only the
literal payload online triggers the replay; the state is never modified. -/
def lifecycleHandle (okFn : String → Bool) (st : ProcState) (payload : String) :
    List Pub × ProcState :=
  if payload = "online" then (resendDiscoveryMessages okFn st, st) else ([], st)

/-- Consistency of the two process maps: the stored discovery messages are
keyed exactly by the sent discovery topics, in order. -/
def StateInv (st : ProcState) : Prop :=
  st.discoveryMessages.map Prod.fst = st.discoveryTopics

/-! Helper lemmas. -/

theorem str_append_right_inj (s : String) {a b : String} (h : s ++ a = s ++ b) : a = b := by
  have h2 := congrArg String.data h
  simp only [String.data_append] at h2
  exact String.ext (List.append_cancel_left h2)

theorem str_append_left_inj (t : String) {a b : String} (h : a ++ t = b ++ t) : a = b := by
  have h2 := congrArg String.data h
  simp only [String.data_append] at h2
  exact String.ext (List.append_cancel_right h2)

theorem str_append_ne (t : String) {a b : String} (h : a ≠ b) : t ++ a ≠ t ++ b :=
  fun he => h (str_append_right_inj t he)

theorem contains_append_singleton (l : List String) (a : String) :
    (l ++ [a]).contains a = true := by
  simp [List.contains, List.elem_iff]

theorem find?_takeWhile_false {α : Type} [DecidableEq α] (p : α → Bool) :
    ∀ (l : List α) (k : α), l.find? p = some k →
      ∀ x ∈ l.takeWhile (fun y => y != k), p x = false := by
  intro l
  induction l with
  | nil => intro k h; simp [List.find?] at h
  | cons a t ih =>
    intro k h x hx
    by_cases hpa : p a = true
    · rw [List.find?_cons_of_pos _ hpa] at h
      cases h
      simp [List.takeWhile_cons] at hx
    · rw [List.find?_cons_of_neg _ (by simp [hpa])] at h
      have hak : a ≠ k := by
        intro he; subst he
        exact hpa (List.find?_some h)
      rw [List.takeWhile_cons] at hx
      simp [bne, hak] at hx
      rcases hx with rfl | hx
      · simpa using hpa
      · exact ih k h x hx

theorem handle_valid_eq (root : String) (client : Broker) (st : ProcState) (req : Request)
    (hv : firstMissingKey req.body = none) :
    handle root client st req = handleValid root client st req := by
  unfold handle; rw [hv]

theorem publishStatus_ok (client : Broker) (st : ProcState) (req : Request) (pre : List Pub)
    (hok : client.statOk = true) :
    publishStatus client st req pre =
      { status := 200, body := ""
        publishes := pre ++ [⟨fullTopicFor req, serializeRec (normalizeControl req.body), PubKind.status, true⟩]
        state := st } := by
  unfold publishStatus; rw [hok]; simp

theorem handle_marked (root : String) (client : Broker) (st : ProcState) (req : Request)
    (hv : firstMissingKey req.body = none)
    (hm : st.discoveryTopics.contains (discoveryTopicFor root (resolveTopic req)) = true) :
    handle root client st req = publishStatus client st req [] := by
  rw [handle_valid_eq root client st req hv]
  unfold handleValid
  rw [hm]
  simp

theorem handle_unmarked_ok (root : String) (client : Broker) (st : ProcState) (req : Request)
    (hv : firstMissingKey req.body = none)
    (hm : st.discoveryTopics.contains (discoveryTopicFor root (resolveTopic req)) = false)
    (hok : client.discOk = true) :
    handle root client st req = publishStatus client (markState root st req) req
      [⟨discoveryTopicFor root (resolveTopic req),
        serializeDiscovery (buildDiscoveryPayload (resolveTopic req) (resolvePfx req)),
        PubKind.discovery, true⟩] := by
  rw [handle_valid_eq root client st req hv]
  unfold handleValid
  rw [hm, hok]
  simp

theorem handle_unmarked_fail (root : String) (client : Broker) (st : ProcState) (req : Request)
    (hv : firstMissingKey req.body = none)
    (hm : st.discoveryTopics.contains (discoveryTopicFor root (resolveTopic req)) = false)
    (hok : client.discOk = false) :
    handle root client st req =
      { status := 500, body := client.discErrMsg
        publishes := [⟨discoveryTopicFor root (resolveTopic req),
          serializeDiscovery (buildDiscoveryPayload (resolveTopic req) (resolvePfx req)),
          PubKind.discovery, false⟩]
        state := st } := by
  unfold handle; rw [hv]; unfold handleValid; rw [hm, hok]; simp

theorem countKind_cons (k : PubKind) (r : HandlerResult) (rs : List HandlerResult) :
    countKind k (r :: rs) =
      (r.publishes.filter (fun p => p.kind == k)).length + countKind k rs := by
  simp [countKind]

/-- Requests processed while the discovery key of their shared topic is
already marked sent publish no discovery message, one status message each,
and leave the state untouched. -/
theorem run_marked (root : String) (client : Broker) (tp pp : String)
    (hok2 : client.statOk = true) :
    ∀ (reqs : List Request) (st : ProcState),
      (∀ r ∈ reqs, r.topicParam = tp ∧ r.prefixParam = pp ∧ firstMissingKey r.body = none) →
      st.discoveryTopics.contains
        (discoveryTopicFor root (if tp = "" then "mutedeck" else tp)) = true →
      countKind PubKind.discovery (runRequests root client st reqs) = 0 ∧
      countKind PubKind.status (runRequests root client st reqs) = reqs.length := by
  intro reqs
  induction reqs with
  | nil => intro st _ _; simp [runRequests, countKind]
  | cons r rs ih =>
    intro st hsame hm
    obtain ⟨h1, h2, h3⟩ := hsame r (List.mem_cons_self r rs)
    have hrt : resolveTopic r = (if tp = "" then "mutedeck" else tp) := by
      simp [resolveTopic, h1]
    have hm' : st.discoveryTopics.contains (discoveryTopicFor root (resolveTopic r)) = true := by
      rw [hrt]; exact hm
    have hstep := handle_marked root client st r h3 hm'
    rw [publishStatus_ok client st r [] hok2] at hstep
    have hrest := ih st (fun x hx => hsame x (List.mem_cons_of_mem r hx)) hm
    rw [runRequests]
    simp only [hstep]
    rw [countKind_cons, countKind_cons]
    constructor
    · simpa using hrest.1
    · simp only [List.length_cons]
      have := hrest.2
      simp [this, Nat.add_comm]


theorem handle_missing (root : String) (client : Broker) (st : ProcState) (req : Request)
    (k : String) (h : firstMissingKey req.body = some k) :
    handle root client st req =
      { status := 400, body := "Missing required key: " ++ k, publishes := [], state := st } := by
  unfold handle; rw [h]

theorem publishStatus_publishes (client : Broker) (st : ProcState) (req : Request) (pre : List Pub) :
    (publishStatus client st req pre).publishes =
      pre ++ [⟨fullTopicFor req, serializeRec (normalizeControl req.body), PubKind.status, client.statOk⟩] := by
  unfold publishStatus
  cases h : client.statOk <;> simp [h]

theorem publishStatus_state (client : Broker) (st : ProcState) (req : Request) (pre : List Pub) :
    (publishStatus client st req pre).state = st := by
  unfold publishStatus
  cases h : client.statOk <;> simp [h]

theorem normalizeEntry_fst (e : String × Jval) : (normalizeEntry e).1 = e.1 := by
  unfold normalizeEntry
  by_cases h : e.1 = "control"
  · rw [if_pos h]
    cases hv : e.2 <;> simp
  · rw [if_neg h]

theorem normalizeEntry_of_ne (e : String × Jval) (h : e.1 ≠ "control") : normalizeEntry e = e := by
  unfold normalizeEntry; rw [if_neg h]

theorem normalizeControl_keys (r : Rec) : (normalizeControl r).map Prod.fst = r.map Prod.fst := by
  unfold normalizeControl
  rw [List.map_map]
  exact List.map_congr_left (fun a _ => normalizeEntry_fst a)

theorem normalizeControl_lookup_ne (r : Rec) (k : String) (hk : k ≠ "control") :
    lookupKey (normalizeControl r) k = lookupKey r k := by
  induction r with
  | nil => rfl
  | cons e es ih =>
    simp only [normalizeControl, List.map_cons, lookupKey, normalizeEntry_fst]
    by_cases he : e.1 = k
    · rw [if_pos he, if_pos he]
      have hne : e.1 ≠ "control" := by rw [he]; exact hk
      rw [normalizeEntry_of_ne e hne]
    · rw [if_neg he, if_neg he]
      exact ih

theorem normalizeControl_lookup_control (r : Rec) :
    lookupKey (normalizeControl r) "control" =
      Option.map (fun v => match v with
        | Jval.str s => Jval.str (getPlatformName s)
        | v => v) (lookupKey r "control") := by
  induction r with
  | nil => rfl
  | cons e es ih =>
    simp only [normalizeControl, List.map_cons, lookupKey, normalizeEntry_fst]
    by_cases he : e.1 = "control"
    · rw [if_pos he, if_pos he]
      unfold normalizeEntry
      rw [if_pos he]
      cases hv : e.2 <;> simp
    · rw [if_neg he, if_neg he]
      exact ih

theorem handle_statusPayloads (root : String) (client : Broker) (st : ProcState) (req : Request)
    (hv : firstMissingKey req.body = none) (hok : client.discOk = true) :
    statusPayloads (handle root client st req) = [serializeRec (normalizeControl req.body)] := by
  rw [handle_valid_eq root client st req hv]
  unfold handleValid
  by_cases hm : st.discoveryTopics.contains (discoveryTopicFor root (resolveTopic req)) = true
  · rw [if_pos hm]
    unfold statusPayloads
    rw [publishStatus_publishes]
    simp
  · rw [if_neg hm, if_pos hok]
    unfold statusPayloads
    rw [publishStatus_publishes]
    simp


/-- C2: when the broker rejects the discovery publish, the handler answers
HTTP 500, leaves the process state unchanged (key unmarked, document not
stored) and publishes no status message; a subsequent request for the same
topic attempts the discovery publish again. -/
theorem C2_discovery_failure_atomic (root : String) (client retryClient : Broker)
    (st : ProcState) (req : Request)
    (hv : firstMissingKey req.body = none)
    (hun : st.discoveryTopics.contains (discoveryTopicFor root (resolveTopic req)) = false)
    (hfail : client.discOk = false)
    (hretry : retryClient.discOk = true) :
    (handle root client st req).status = 500 ∧
    (handle root client st req).state = st ∧
    countKind PubKind.status [handle root client st req] = 0 ∧
    countKind PubKind.discovery [handle root retryClient st req] = 1 := by
  have h := handle_unmarked_fail root client st req hv hun hfail
  refine ⟨by rw [h], by rw [h], by rw [h]; simp [countKind], ?_⟩
  have h2 := handle_unmarked_ok root retryClient st req hv hun hretry
  rw [h2]
  simp [countKind, publishStatus_publishes]

/-- C3: the lifecycle subscription republishes every stored discovery
document exactly when the payload is the literal online; any other payload
triggers nothing; the replay is exhaustive over all previously sent keys,
never resets the sent state, and publishes nothing when the store is empty;
the request handler preserves the sent-keys/stored-documents consistency. -/
theorem C3_lifecycle_replay (okFn : String → Bool) (st : ProcState) (payload : String) :
    (lifecycleHandle okFn st payload).2 = st ∧
    (payload = "online" →
      (lifecycleHandle okFn st payload).1 =
        st.discoveryMessages.map (fun e => ⟨e.1, serializeDiscovery e.2, PubKind.resend, okFn e.1⟩)) ∧
    (payload ≠ "online" → (lifecycleHandle okFn st payload).1 = []) ∧
    (st.discoveryMessages = [] → (lifecycleHandle okFn st payload).1 = []) ∧
    (StateInv st → (lifecycleHandle okFn st "online").1.map Pub.topic = st.discoveryTopics) ∧
    (∀ (root : String) (client : Broker) (req : Request),
      StateInv st → StateInv (handle root client st req).state) := by
  refine ⟨?_, ?_, ?_, ?_, ?_, ?_⟩
  · unfold lifecycleHandle; split <;> rfl
  · intro h; simp [lifecycleHandle, h, resendDiscoveryMessages]
  · intro h; simp [lifecycleHandle, h]
  · intro h
    unfold lifecycleHandle resendDiscoveryMessages
    rw [h]
    split <;> simp
  · intro hinv
    have honline : (lifecycleHandle okFn st "online").1 = resendDiscoveryMessages okFn st := by
      unfold lifecycleHandle; rw [if_pos rfl]
    rw [honline]
    unfold resendDiscoveryMessages
    rw [List.map_map]
    exact hinv
  · intro root client req hinv
    cases h : firstMissingKey req.body with
    | some k =>
      rw [handle_missing root client st req k h]
      exact hinv
    | none =>
      rw [handle_valid_eq root client st req h]
      unfold handleValid
      split
      · rw [publishStatus_state]; exact hinv
      · split
        · rw [publishStatus_state]
          unfold StateInv markState at *
          simp [hinv]
        · exact hinv

/-- C5: validation checks the six required keys in the fixed order call,
control, mute, record, share, video; when one is absent the handler answers
HTTP 400 with body naming exactly the first absent key and performs zero
publishes, leaving the state unchanged. -/
theorem C5_validation_first_missing (root : String) (client : Broker) (st : ProcState)
    (req : Request) (k : String)
    (h : firstMissingKey req.body = some k) :
    handle root client st req =
      { status := 400, body := "Missing required key: " ++ k, publishes := [], state := st } ∧
    requiredKeys = ["call", "control", "mute", "record", "share", "video"] ∧
    k ∈ requiredKeys ∧
    lookupKey req.body k = none ∧
    (∀ k' ∈ requiredKeys.takeWhile (fun y => y != k), (lookupKey req.body k').isSome = true) := by
  refine ⟨handle_missing root client st req k h, rfl, ?_, ?_, ?_⟩
  · exact List.mem_of_find?_eq_some h
  · have h2 := List.find?_some h
    simpa [Option.isNone_iff_eq_none] using h2
  · intro k' hk'
    have h3 := find?_takeWhile_false _ requiredKeys k h k' hk'
    cases hh : lookupKey req.body k' with
    | none => rw [hh] at h3; simp at h3
    | some v => rfl


theorem zoom_teams_disjoint (s : String) (h : strHasPfx s "teams" = true) :
    strHasPfx s "zoom" = false := by
  unfold strHasPfx at h ⊢
  rw [show ("teams" : String).data = ['t','e','a','m','s'] from rfl] at h
  rw [show ("zoom" : String).data = ['z','o','o','m'] from rfl]
  cases hs : s.data with
  | nil => rw [hs] at h; exact absurd h (by simp [hasPfx])
  | cons c cs =>
    rw [hs] at h
    have hc : c = 't' := by
      by_contra hne
      simp [hasPfx, beq_iff_eq] at h
      exact hne h.1.symm
    subst hc
    simp [hasPfx]

/-- C4: in the discovery document for any topic and prefix, the record,
share, video and call entities carry the not-equals-active-to-OFF template,
the mute entity carries the inverted equals-active-to-OFF template, and the
control entity carries a fixed six-value option enumeration with a raw
passthrough value template. -/
theorem C4_value_templates (t p : String) :
    (lookupKey (buildDiscoveryPayload t p).Components (t ++ "_record")).map Component.ValueTemplate
      = some "\x7b\x7b value_json.record != \x27active\x27 and \x27OFF\x27 or \x27ON\x27 \x7d\x7d" ∧
    (lookupKey (buildDiscoveryPayload t p).Components (t ++ "_share")).map Component.ValueTemplate
      = some "\x7b\x7b value_json.share != \x27active\x27 and \x27OFF\x27 or \x27ON\x27 \x7d\x7d" ∧
    (lookupKey (buildDiscoveryPayload t p).Components (t ++ "_video")).map Component.ValueTemplate
      = some "\x7b\x7b value_json.video != \x27active\x27 and \x27OFF\x27 or \x27ON\x27 \x7d\x7d" ∧
    (lookupKey (buildDiscoveryPayload t p).Components (t ++ "_call")).map Component.ValueTemplate
      = some "\x7b\x7b value_json.call != \x27active\x27 and \x27OFF\x27 or \x27ON\x27 \x7d\x7d" ∧
    (lookupKey (buildDiscoveryPayload t p).Components (t ++ "_mute")).map Component.ValueTemplate
      = some "\x7b\x7b value_json.mute == \x27active\x27 and \x27OFF\x27 or \x27ON\x27 \x7d\x7d" ∧
    (lookupKey (buildDiscoveryPayload t p).Components (t ++ "_control")).map Component.ValueTemplate
      = some "\x7b\x7b value_json.control \x7d\x7d" ∧
    (lookupKey (buildDiscoveryPayload t p).Components (t ++ "_control")).map Component.Options
      = some ["Zoom", "Teams", "Google Meet", "StreamYard", "Webex", "System"] ∧
    (lookupKey (buildDiscoveryPayload t p).Components (t ++ "_control")).map
        (fun c => c.Options.length) = some 6 := by
  refine ⟨?_, ?_, ?_, ?_, ?_, ?_, ?_, ?_⟩
  · simp only [buildDiscoveryPayload, lookupKey]
    rw [if_neg (str_append_ne t (by decide : ("_call" : String) ≠ "_record")),
        if_neg (str_append_ne t (by decide : ("_control" : String) ≠ "_record")),
        if_neg (str_append_ne t (by decide : ("_mute" : String) ≠ "_record"))]
    simp
  · simp only [buildDiscoveryPayload, lookupKey]
    rw [if_neg (str_append_ne t (by decide : ("_call" : String) ≠ "_share")),
        if_neg (str_append_ne t (by decide : ("_control" : String) ≠ "_share")),
        if_neg (str_append_ne t (by decide : ("_mute" : String) ≠ "_share")),
        if_neg (str_append_ne t (by decide : ("_record" : String) ≠ "_share"))]
    simp
  · simp only [buildDiscoveryPayload, lookupKey]
    rw [if_neg (str_append_ne t (by decide : ("_call" : String) ≠ "_video")),
        if_neg (str_append_ne t (by decide : ("_control" : String) ≠ "_video")),
        if_neg (str_append_ne t (by decide : ("_mute" : String) ≠ "_video")),
        if_neg (str_append_ne t (by decide : ("_record" : String) ≠ "_video")),
        if_neg (str_append_ne t (by decide : ("_share" : String) ≠ "_video"))]
    simp
  · simp only [buildDiscoveryPayload, lookupKey]
    simp
  · simp only [buildDiscoveryPayload, lookupKey]
    rw [if_neg (str_append_ne t (by decide : ("_call" : String) ≠ "_mute")),
        if_neg (str_append_ne t (by decide : ("_control" : String) ≠ "_mute"))]
    simp
  · simp only [buildDiscoveryPayload, lookupKey]
    rw [if_neg (str_append_ne t (by decide : ("_call" : String) ≠ "_control"))]
    simp
  · simp only [buildDiscoveryPayload, lookupKey]
    rw [if_neg (str_append_ne t (by decide : ("_call" : String) ≠ "_control"))]
    simp
  · simp only [buildDiscoveryPayload, lookupKey]
    rw [if_neg (str_append_ne t (by decide : ("_call" : String) ≠ "_control"))]
    simp


/-- C6: normalization maps control values beginning with zoom to Zoom,
beginning with teams to Teams, exactly webex to Webex, exactly streamyard
to StreamYard, exactly google-meet to Google Meet, and any other string to
its title-cased form with underscores replaced by spaces; the rewrite is
applied in place to the record before serialization and only to
string-valued control fields, and zoom-abc always yields Zoom. -/
theorem C6_control_normalization (s : String) :
    (strHasPfx s "zoom" = true → getPlatformName s = "Zoom") ∧
    (strHasPfx s "teams" = true → getPlatformName s = "Teams") ∧
    getPlatformName "webex" = "Webex" ∧
    getPlatformName "streamyard" = "StreamYard" ∧
    getPlatformName "google-meet" = "Google Meet" ∧
    (strHasPfx s "zoom" = false → strHasPfx s "teams" = false → s ≠ "webex" →
      s ≠ "streamyard" → s ≠ "google-meet" → getPlatformName s = toTitleCase s) ∧
    getPlatformName "zoom-abc" = "Zoom" ∧
    (∀ r : Rec, lookupKey (normalizeControl r) "control" =
      Option.map (fun v => match v with
        | Jval.str s2 => Jval.str (getPlatformName s2)
        | v => v) (lookupKey r "control")) ∧
    (∀ (root : String) (client : Broker) (st : ProcState) (req : Request),
      firstMissingKey req.body = none → client.discOk = true →
      statusPayloads (handle root client st req) = [serializeRec (normalizeControl req.body)]) := by
  refine ⟨?_, ?_, by decide, by decide, by decide, ?_, by decide,
    normalizeControl_lookup_control,
    handle_statusPayloads⟩
  · intro h
    unfold getPlatformName
    rw [h]
    simp
  · intro h
    unfold getPlatformName
    rw [zoom_teams_disjoint s h, h]
    simp
  · intro h1 h2 h3 h4 h5
    unfold getPlatformName
    rw [h1, h2, if_neg h3, if_neg h4, if_neg h5]
    simp

/-- C7: the discovery document published for a given topic and routing
prefix from a fresh process is a pure function of these two inputs: two
runs with different bodies or broker outcomes produce byte-identical
serialized documents, and the embedded version literal is the build-time
constant 2024.12.16. -/
theorem C7_discovery_determinism (root : String) (c1 c2 : Broker) (b1 b2 : Rec) (tp pp : String)
    (h1 : firstMissingKey b1 = none) (h2 : firstMissingKey b2 = none) :
    discoveryPayloads (handle root c1 ProcState.fresh ⟨b1, tp, pp⟩) =
      discoveryPayloads (handle root c2 ProcState.fresh ⟨b2, tp, pp⟩) ∧
    discoveryPayloads (handle root c1 ProcState.fresh ⟨b1, tp, pp⟩) =
      [serializeDiscovery (buildDiscoveryPayload (if tp = "" then "mutedeck" else tp)
        (if pp = "" then "mutedeck2mqtt" else pp))] ∧
    (∀ a b : String, (buildDiscoveryPayload a b).O.SoftwareVersion = "2024.12.16") := by
  have key : ∀ (c : Broker) (b : Rec), firstMissingKey b = none →
      discoveryPayloads (handle root c ProcState.fresh ⟨b, tp, pp⟩) =
        [serializeDiscovery (buildDiscoveryPayload (if tp = "" then "mutedeck" else tp)
          (if pp = "" then "mutedeck2mqtt" else pp))] := by
    intro c b hb
    have hm0 : ProcState.fresh.discoveryTopics.contains
        (discoveryTopicFor root (resolveTopic ⟨b, tp, pp⟩)) = false := rfl
    have hrt : resolveTopic (⟨b, tp, pp⟩ : Request) = (if tp = "" then "mutedeck" else tp) := rfl
    have hrp : resolvePfx (⟨b, tp, pp⟩ : Request) = (if pp = "" then "mutedeck2mqtt" else pp) := rfl
    cases hok : c.discOk with
    | true =>
      rw [handle_unmarked_ok root c ProcState.fresh ⟨b, tp, pp⟩ hb hm0 hok]
      unfold discoveryPayloads
      rw [publishStatus_publishes]
      simp [hrt, hrp]
    | false =>
      rw [handle_unmarked_fail root c ProcState.fresh ⟨b, tp, pp⟩ hb hm0 hok]
      unfold discoveryPayloads
      simp [hrt, hrp]
  refine ⟨?_, key c1 b1 h1, fun a b => rfl⟩
  rw [key c1 b1 h1, key c2 b2 h2]

/-- C1: for a fixed topic and routing prefix, N successful webhook requests
(N at least 2, all keys present, broker accepting) from a fresh process
perform exactly one discovery publish and N status publishes; once the
discovery key is marked sent the request path never publishes discovery
again, and the lifecycle replay never clears the sent state. -/
theorem C1_discovery_once_status_each (root : String) (client : Broker) (tp pp : String)
    (reqs : List Request)
    (hn : 2 ≤ reqs.length)
    (hok1 : client.discOk = true) (hok2 : client.statOk = true)
    (hsame : ∀ r ∈ reqs, r.topicParam = tp ∧ r.prefixParam = pp ∧ firstMissingKey r.body = none) :
    countKind PubKind.discovery (runRequests root client ProcState.fresh reqs) = 1 ∧
    countKind PubKind.status (runRequests root client ProcState.fresh reqs) = reqs.length ∧
    (∀ (st : ProcState) (r : Request),
      st.discoveryTopics.contains (discoveryTopicFor root (resolveTopic r)) = true →
      firstMissingKey r.body = none →
      countKind PubKind.discovery [handle root client st r] = 0) ∧
    (∀ (okFn : String → Bool) (st : ProcState) (pl : String),
      (lifecycleHandle okFn st pl).2 = st) := by
  have hmarkedNoDisc : ∀ (st : ProcState) (r : Request),
      st.discoveryTopics.contains (discoveryTopicFor root (resolveTopic r)) = true →
      firstMissingKey r.body = none →
      countKind PubKind.discovery [handle root client st r] = 0 := by
    intro st r hm hv
    rw [handle_marked root client st r hv hm, publishStatus_ok client st r [] hok2]
    simp [countKind]
  have hlife : ∀ (okFn : String → Bool) (st : ProcState) (pl : String),
      (lifecycleHandle okFn st pl).2 = st := by
    intro okFn st pl
    unfold lifecycleHandle
    split <;> rfl
  obtain ⟨r, rs, rfl⟩ : ∃ r rs, reqs = r :: rs := by
    cases reqs with
    | nil => simp at hn
    | cons a l => exact ⟨a, l, rfl⟩
  obtain ⟨h1, h2, h3⟩ := hsame r (List.mem_cons_self r rs)
  have hrt : resolveTopic r = (if tp = "" then "mutedeck" else tp) := by
    simp [resolveTopic, h1]
  have hm0 : ProcState.fresh.discoveryTopics.contains
      (discoveryTopicFor root (resolveTopic r)) = false := rfl
  have hstep := handle_unmarked_ok root client ProcState.fresh r h3 hm0 hok1
  rw [publishStatus_ok client (markState root ProcState.fresh r) r _ hok2] at hstep
  have hmarked : (markState root ProcState.fresh r).discoveryTopics.contains
      (discoveryTopicFor root (if tp = "" then "mutedeck" else tp)) = true := by
    rw [← hrt]
    exact contains_append_singleton _ _
  have hrest := run_marked root client tp pp hok2 rs (markState root ProcState.fresh r)
    (fun x hx => hsame x (List.mem_cons_of_mem r hx)) hmarked
  rw [runRequests]
  simp only [hstep]
  rw [countKind_cons, countKind_cons]
  refine ⟨?_, ?_, hmarkedNoDisc, hlife⟩
  · simpa using hrest.1
  · simp only [List.length_cons]
    have := hrest.2
    simp [this, Nat.add_comm]


def sampleBody : Rec :=
  [("call", Jval.str "active"), ("control", Jval.str "zoom-meeting"),
   ("mute", Jval.str "inactive"), ("record", Jval.str "disabled"),
   ("share", Jval.str "disabled"), ("video", Jval.str "active")]

def okClient : Broker := ⟨true, true, "", ""⟩

/-- C8: the spec's worked example: posting the sample body with topic
MyRoom yields a discovery publish to
homeassistant/device/mutedeck2mqtt_device_MyRoom/config on the first call
only, a status publish to mutedeck2mqtt/MyRoom whose body has control
rewritten to Zoom and all other fields unchanged, and HTTP 200; absent
query parameters default to topic mutedeck and prefix mutedeck2mqtt. -/
theorem C8_worked_example :
    (handle "homeassistant" okClient ProcState.fresh ⟨sampleBody, "MyRoom", ""⟩).status = 200 ∧
    (handle "homeassistant" okClient ProcState.fresh ⟨sampleBody, "MyRoom", ""⟩).publishes.map
        (fun p => (p.topic, p.kind, p.ok)) =
      [("homeassistant/device/mutedeck2mqtt_device_MyRoom/config", PubKind.discovery, true),
       ("mutedeck2mqtt/MyRoom", PubKind.status, true)] ∧
    statusPayloads (handle "homeassistant" okClient ProcState.fresh ⟨sampleBody, "MyRoom", ""⟩) =
      ["\x7b\"call\":\"active\",\"control\":\"Zoom\",\"mute\":\"inactive\",\"record\":\"disabled\",\"share\":\"disabled\",\"video\":\"active\"\x7d"] ∧
    (handle "homeassistant" okClient
        (handle "homeassistant" okClient ProcState.fresh ⟨sampleBody, "MyRoom", ""⟩).state
        ⟨sampleBody, "MyRoom", ""⟩).publishes.map (fun p => (p.topic, p.kind, p.ok)) =
      [("mutedeck2mqtt/MyRoom", PubKind.status, true)] ∧
    resolveTopic ⟨sampleBody, "", ""⟩ = "mutedeck" ∧
    resolvePfx ⟨sampleBody, "", ""⟩ = "mutedeck2mqtt" := by
  refine ⟨by decide, by decide, by decide, by decide, rfl, rfl⟩

/-- C9: for every valid request the published status payload is the
serialization of the input body with exactly the same key set (extra keys
pass through), every value except the control field unchanged, and control
changed only via the normalization and only when it is a string. -/
theorem C9_status_frame (root : String) (client : Broker) (st : ProcState) (req : Request)
    (hv : firstMissingKey req.body = none) (hok : client.discOk = true) :
    statusPayloads (handle root client st req) = [serializeRec (normalizeControl req.body)] ∧
    (normalizeControl req.body).map Prod.fst = req.body.map Prod.fst ∧
    (∀ k : String, k ≠ "control" →
      lookupKey (normalizeControl req.body) k = lookupKey req.body k) ∧
    lookupKey (normalizeControl req.body) "control" =
      Option.map (fun v => match v with
        | Jval.str s => Jval.str (getPlatformName s)
        | v => v) (lookupKey req.body "control") :=
  ⟨handle_statusPayloads root client st req hv hok,
   normalizeControl_keys req.body,
   fun k hk => normalizeControl_lookup_ne req.body k hk,
   normalizeControl_lookup_control req.body⟩

/-- C10: the discovery dedup key is derived from the topic only: of two
requests sharing a topic but with different routing prefixes, only the
first publishes and stores a discovery document, the stored document keeps
the first request's prefix in its state-topic field, and each request's
status message goes out under its own prefix, so the two disagree. -/
theorem C10_dedup_ignores_routing_pfx (root : String) (client : Broker) (b1 b2 : Rec)
    (t p1 p2 : String)
    (hv1 : firstMissingKey b1 = none) (hv2 : firstMissingKey b2 = none)
    (ht : t ≠ "") (hp1 : p1 ≠ "") (hp2 : p2 ≠ "") (hne : p1 ≠ p2)
    (hok1 : client.discOk = true) (hok2 : client.statOk = true) :
    countKind PubKind.discovery [handle root client ProcState.fresh ⟨b1, t, p1⟩] = 1 ∧
    countKind PubKind.discovery
      [handle root client (handle root client ProcState.fresh ⟨b1, t, p1⟩).state ⟨b2, t, p2⟩] = 0 ∧
    lookupKey (handle root client (handle root client ProcState.fresh ⟨b1, t, p1⟩).state
        ⟨b2, t, p2⟩).state.discoveryMessages (discoveryTopicFor root t) =
      some (buildDiscoveryPayload t p1) ∧
    (buildDiscoveryPayload t p1).StateTopic = p1 ++ "/" ++ t ∧
    statusTopics (handle root client ProcState.fresh ⟨b1, t, p1⟩) = [p1 ++ "/" ++ t] ∧
    statusTopics (handle root client (handle root client ProcState.fresh ⟨b1, t, p1⟩).state
        ⟨b2, t, p2⟩) = [p2 ++ "/" ++ t] ∧
    p1 ++ "/" ++ t ≠ p2 ++ "/" ++ t := by
  have hrt1 : resolveTopic (⟨b1, t, p1⟩ : Request) = t := by simp [resolveTopic, ht]
  have hrt2 : resolveTopic (⟨b2, t, p2⟩ : Request) = t := by simp [resolveTopic, ht]
  have hrp1 : resolvePfx (⟨b1, t, p1⟩ : Request) = p1 := by simp [resolvePfx, hp1]
  have hrp2 : resolvePfx (⟨b2, t, p2⟩ : Request) = p2 := by simp [resolvePfx, hp2]
  have hm0 : ProcState.fresh.discoveryTopics.contains
      (discoveryTopicFor root (resolveTopic ⟨b1, t, p1⟩)) = false := rfl
  have hstep1 := handle_unmarked_ok root client ProcState.fresh ⟨b1, t, p1⟩ hv1 hm0 hok1
  rw [publishStatus_ok client _ _ _ hok2] at hstep1
  have hstate1 : (handle root client ProcState.fresh ⟨b1, t, p1⟩).state =
      markState root ProcState.fresh ⟨b1, t, p1⟩ := by rw [hstep1]
  have hkeys : discoveryTopicFor root (resolveTopic ⟨b2, t, p2⟩) =
      discoveryTopicFor root (resolveTopic ⟨b1, t, p1⟩) := by rw [hrt1, hrt2]
  have hmark : (markState root ProcState.fresh ⟨b1, t, p1⟩).discoveryTopics.contains
      (discoveryTopicFor root (resolveTopic ⟨b2, t, p2⟩)) = true := by
    rw [hkeys]
    exact contains_append_singleton _ _
  have hstep2 := handle_marked root client (markState root ProcState.fresh ⟨b1, t, p1⟩)
    ⟨b2, t, p2⟩ hv2 hmark
  rw [publishStatus_ok client _ _ _ hok2] at hstep2
  refine ⟨?_, ?_, ?_, rfl, ?_, ?_, ?_⟩
  · rw [hstep1]; simp [countKind]
  · rw [hstate1, hstep2]; simp [countKind]
  · rw [hstate1, hstep2]
    show lookupKey (markState root ProcState.fresh ⟨b1, t, p1⟩).discoveryMessages
      (discoveryTopicFor root t) = some (buildDiscoveryPayload t p1)
    simp [markState, ProcState.fresh, hrt1, hrp1, lookupKey]
  · rw [hstep1]
    unfold statusTopics
    simp [fullTopicFor, hrt1, hrp1]
  · rw [hstate1, hstep2]
    unfold statusTopics
    simp [fullTopicFor, hrt2, hrp2]
  · intro h
    exact hne (str_append_left_inj "/" (str_append_left_inj t h))


/-- A broker that rejects the discovery publish. -/
def failClient : Broker := ⟨false, true, "broker down", ""⟩

/-- A body missing the video key. -/
def missingBody : Rec :=
  [("call", Jval.str "active"), ("control", Jval.str "zoom-meeting"),
   ("mute", Jval.str "inactive"), ("record", Jval.str "disabled"),
   ("share", Jval.str "disabled")]

/-- A valid body with an extra pass-through key. -/
def extraBody : Rec := sampleBody ++ [("extra", Jval.str "x")]

/-- A state with one stored discovery document. -/
def storedState : ProcState :=
  ⟨[discoveryTopicFor "homeassistant" "room"],
   [(discoveryTopicFor "homeassistant" "room", buildDiscoveryPayload "room" "pfx")]⟩

theorem C1_witness :
    2 ≤ ([⟨sampleBody, "MyRoom", ""⟩, ⟨sampleBody, "MyRoom", ""⟩] : List Request).length ∧
    okClient.discOk = true ∧ okClient.statOk = true ∧
    countKind PubKind.discovery (runRequests "homeassistant" okClient ProcState.fresh
      [⟨sampleBody, "MyRoom", ""⟩, ⟨sampleBody, "MyRoom", ""⟩]) = 1 ∧
    countKind PubKind.status (runRequests "homeassistant" okClient ProcState.fresh
      [⟨sampleBody, "MyRoom", ""⟩, ⟨sampleBody, "MyRoom", ""⟩]) = 2 :=
  ⟨by decide, rfl, rfl,
   (C1_discovery_once_status_each "homeassistant" okClient "MyRoom" ""
     [⟨sampleBody, "MyRoom", ""⟩, ⟨sampleBody, "MyRoom", ""⟩]
     (by decide) rfl rfl (by decide)).1,
   (C1_discovery_once_status_each "homeassistant" okClient "MyRoom" ""
     [⟨sampleBody, "MyRoom", ""⟩, ⟨sampleBody, "MyRoom", ""⟩]
     (by decide) rfl rfl (by decide)).2.1⟩

theorem C2_witness :
    firstMissingKey sampleBody = none ∧
    ProcState.fresh.discoveryTopics.contains
      (discoveryTopicFor "homeassistant" (resolveTopic ⟨sampleBody, "MyRoom", ""⟩)) = false ∧
    failClient.discOk = false ∧ okClient.discOk = true ∧
    (handle "homeassistant" failClient ProcState.fresh ⟨sampleBody, "MyRoom", ""⟩).status = 500 ∧
    (handle "homeassistant" failClient ProcState.fresh ⟨sampleBody, "MyRoom", ""⟩).state =
      ProcState.fresh ∧
    countKind PubKind.discovery
      [handle "homeassistant" okClient ProcState.fresh ⟨sampleBody, "MyRoom", ""⟩] = 1 :=
  ⟨by decide, rfl, rfl, rfl,
   (C2_discovery_failure_atomic "homeassistant" failClient okClient ProcState.fresh
     ⟨sampleBody, "MyRoom", ""⟩ (by decide) rfl rfl rfl).1,
   (C2_discovery_failure_atomic "homeassistant" failClient okClient ProcState.fresh
     ⟨sampleBody, "MyRoom", ""⟩ (by decide) rfl rfl rfl).2.1,
   (C2_discovery_failure_atomic "homeassistant" failClient okClient ProcState.fresh
     ⟨sampleBody, "MyRoom", ""⟩ (by decide) rfl rfl rfl).2.2.2⟩

theorem C3_witness :
    (lifecycleHandle (fun _ => true) storedState "online").2 = storedState ∧
    (lifecycleHandle (fun _ => true) storedState "online").1 =
      storedState.discoveryMessages.map
        (fun e => ⟨e.1, serializeDiscovery e.2, PubKind.resend, true⟩) ∧
    (lifecycleHandle (fun _ => true) storedState "offline").1 = [] ∧
    (lifecycleHandle (fun _ => true) ProcState.fresh "online").1 = [] :=
  ⟨(C3_lifecycle_replay (fun _ => true) storedState "online").1,
   (C3_lifecycle_replay (fun _ => true) storedState "online").2.1 rfl,
   (C3_lifecycle_replay (fun _ => true) storedState "offline").2.2.1 (by decide),
   (C3_lifecycle_replay (fun _ => true) ProcState.fresh "online").2.2.2.1 rfl⟩

theorem C5_witness :
    firstMissingKey missingBody = some "video" ∧
    handle "homeassistant" okClient ProcState.fresh ⟨missingBody, "MyRoom", ""⟩ =
      { status := 400, body := "Missing required key: video", publishes := []
        state := ProcState.fresh } :=
  ⟨by decide,
   (C5_validation_first_missing "homeassistant" okClient ProcState.fresh
     ⟨missingBody, "MyRoom", ""⟩ "video" (by decide)).1⟩

theorem C6_witness :
    strHasPfx "zoom-meeting" "zoom" = true ∧
    getPlatformName "zoom-meeting" = "Zoom" ∧
    getPlatformName "obs_studio" = toTitleCase "obs_studio" :=
  ⟨by decide,
   (C6_control_normalization "zoom-meeting").1 (by decide),
   (C6_control_normalization "obs_studio").2.2.2.2.2.1
     (by decide) (by decide) (by decide) (by decide) (by decide)⟩

theorem C7_witness :
    firstMissingKey sampleBody = none ∧ firstMissingKey extraBody = none ∧
    discoveryPayloads (handle "homeassistant" okClient ProcState.fresh
        ⟨sampleBody, "room", "p"⟩) =
      discoveryPayloads (handle "homeassistant" failClient ProcState.fresh
        ⟨extraBody, "room", "p"⟩) :=
  ⟨by decide, by decide,
   (C7_discovery_determinism "homeassistant" okClient failClient sampleBody extraBody
     "room" "p" (by decide) (by decide)).1⟩

theorem C9_witness :
    firstMissingKey extraBody = none ∧ okClient.discOk = true ∧
    statusPayloads (handle "homeassistant" okClient ProcState.fresh ⟨extraBody, "MyRoom", ""⟩) =
      [serializeRec (normalizeControl extraBody)] :=
  ⟨by decide, rfl,
   (C9_status_frame "homeassistant" okClient ProcState.fresh ⟨extraBody, "MyRoom", ""⟩
     (by decide) rfl).1⟩

theorem C10_witness :
    ("p1" : String) ≠ "p2" ∧ firstMissingKey sampleBody = none ∧
    countKind PubKind.discovery
      [handle "homeassistant" okClient ProcState.fresh ⟨sampleBody, "room", "p1"⟩] = 1 ∧
    countKind PubKind.discovery
      [handle "homeassistant" okClient
        (handle "homeassistant" okClient ProcState.fresh ⟨sampleBody, "room", "p1"⟩).state
        ⟨sampleBody, "room", "p2"⟩] = 0 ∧
    lookupKey (handle "homeassistant" okClient
        (handle "homeassistant" okClient ProcState.fresh ⟨sampleBody, "room", "p1"⟩).state
        ⟨sampleBody, "room", "p2"⟩).state.discoveryMessages
      (discoveryTopicFor "homeassistant" "room") = some (buildDiscoveryPayload "room" "p1") :=
  ⟨by decide, by decide,
   (C10_dedup_ignores_routing_pfx "homeassistant" okClient sampleBody sampleBody
     "room" "p1" "p2" (by decide) (by decide) (by decide) (by decide) (by decide)
     (by decide) rfl rfl).1,
   (C10_dedup_ignores_routing_pfx "homeassistant" okClient sampleBody sampleBody
     "room" "p1" "p2" (by decide) (by decide) (by decide) (by decide) (by decide)
     (by decide) rfl rfl).2.1,
   (C10_dedup_ignores_routing_pfx "homeassistant" okClient sampleBody sampleBody
     "room" "p1" "p2" (by decide) (by decide) (by decide) (by decide) (by decide)
     (by decide) rfl rfl).2.2.1⟩

end Mutedeck
